import Mathlib

/-!
Shallow embedding of the alx-polling application's core logic:
the vote-casting route (POST /api/polls/[id]/vote), the SQL tally
functions (get_poll_results in schema.sql and migration.sql), poll
creation (lib/actions/polls.ts createPoll and POST /api/polls), poll
update (PATCH /api/polls/[id]) and the poll listing (GET /api/polls).

Rows are modelled as structures over Nat ids and Nat timestamps;
the database is a triple of lists; request handlers are pure functions
from a database state (plus request data and injected failure flags for
the storage layer) to a result and a new database state.
-/

/-- A row of the polls table.  Timestamp columns are Nat instants;
`expires_at` is nullable.  `created_at`/`updated_at` book-keeping columns
not consulted by any modelled handler are omitted except `created_at`,
which the listing route sorts by. -/
structure Poll where
  id : Nat
  title : String
  description : Option String
  status : String
  vote_type : String
  max_votes_per_user : Nat
  is_public : Bool
  expires_at : Option Nat
  created_by : Nat
  created_at : Nat
deriving DecidableEq

/-- A row of the poll_options table. -/
structure PollOption where
  id : Nat
  poll_id : Nat
  text : String
  order_index : Nat
deriving DecidableEq

/-- A row of the votes table. -/
structure Vote where
  id : Nat
  poll_id : Nat
  option_id : Nat
  user_id : Nat
deriving DecidableEq

/-- The database state: the three tables the modelled handlers touch. -/
structure DB where
  polls : List Poll
  poll_options : List PollOption
  votes : List Vote
deriving DecidableEq

/-- An error response: message and HTTP status, as produced by the route
handlers with NextResponse.json({error}, {status}). -/
structure ApiError where
  message : String
  status : Nat
deriving DecidableEq

instance {ε α : Type} [DecidableEq ε] [DecidableEq α] : DecidableEq (Except ε α) := fun a b =>
  match a, b with
  | Except.ok x, Except.ok y =>
    if h : x = y then isTrue (by rw [h]) else isFalse (fun hc => by cases hc; exact h rfl)
  | Except.error x, Except.error y =>
    if h : x = y then isTrue (by rw [h]) else isFalse (fun hc => by cases hc; exact h rfl)
  | Except.ok _, Except.error _ => isFalse (fun hc => by cases hc)
  | Except.error _, Except.ok _ => isFalse (fun hc => by cases hc)

/-- `.from("polls").select(...).eq("id", pollId).single()` -/
def DB.findPoll (db : DB) (pollId : Nat) : Option Poll :=
  db.polls.find? (fun p => p.id == pollId)

/-- The inner-join filter `poll_options!inner(id) ... .eq("poll_options.id", optionId)`:
the selected poll row survives only if an option row with this id belongs to it. -/
def DB.optionBelongs (db : DB) (pollId optionId : Nat) : Bool :=
  db.poll_options.any (fun o => o.id == optionId && o.poll_id == pollId)

/-- `.from("votes").select("id").eq("poll_id", pollId).eq("user_id", userId)` -/
def DB.userPollVotes (db : DB) (pollId userId : Nat) : List Vote :=
  db.votes.filter (fun v => v.poll_id == pollId && v.user_id == userId)

/-- `.from("votes").select(...).eq("poll_id", ...).eq("user_id", ...).eq("option_id", ...).single()`
returns a row exactly when such a vote exists. -/
def DB.hasVoteFor (db : DB) (pollId userId optionId : Nat) : Bool :=
  db.votes.any (fun v => v.poll_id == pollId && v.user_id == userId && v.option_id == optionId)

/-- `.from("votes").delete().eq("poll_id", pollId).eq("user_id", userId)` -/
def DB.deleteUserPollVotes (db : DB) (pollId userId : Nat) : DB :=
  { db with votes := db.votes.filter (fun v => !(v.poll_id == pollId && v.user_id == userId)) }

/-- `poll.expires_at && new Date(poll.expires_at) < new Date()` -/
def pollExpired (p : Poll) (now : Nat) : Bool :=
  match p.expires_at with
  | some t => t < now
  | none => false

/-- The vote-limit error body:
`You can only vote N time(s) on this poll`, pluralised exactly as in the source. -/
def voteLimitMessage (n : Nat) : String :=
  "You can only vote " ++ toString n ++ " time" ++ (if n > 1 then "s" else "") ++ " on this poll"

/-- Append the new vote row (`.from("votes").insert([...])`). -/
def insertVote (db : DB) (pollId optionId userId newVoteId : Nat) :
    Except ApiError Vote × DB :=
  let v : Vote := ⟨newVoteId, pollId, optionId, userId⟩
  (Except.ok v, { db with votes := db.votes ++ [v] })

/-- POST /api/polls/[id]/vote for an authenticated user `userId`, translated
check-for-check from the route handler.  `now` is the current instant and
`newVoteId` the id the storage layer assigns to an inserted row.
Returns the response and the database state after the request. -/
def castVote (db : DB) (pollId optionId userId now newVoteId : Nat) :
    Except ApiError Vote × DB :=
  match db.findPoll pollId with
  | none => (Except.error ⟨"Poll or option not found", 404⟩, db)
  | some poll =>
    if !db.optionBelongs pollId optionId then
      (Except.error ⟨"Poll or option not found", 404⟩, db)
    else if poll.status ≠ "active" then
      (Except.error ⟨"Poll is not active", 400⟩, db)
    else if pollExpired poll now then
      (Except.error ⟨"Poll has expired", 400⟩, db)
    else if !poll.is_public && userId != poll.created_by then
      (Except.error ⟨"Poll not found", 404⟩, db)
    else
      let existingVotes := db.userPollVotes pollId userId
      if existingVotes.length ≥ poll.max_votes_per_user then
        (Except.error ⟨voteLimitMessage poll.max_votes_per_user, 400⟩, db)
      else if poll.vote_type == "single" && existingVotes.length > 0 then
        if db.hasVoteFor pollId userId optionId then
          (Except.error ⟨"You have already voted for this option", 400⟩, db)
        else
          insertVote (db.deleteUserPollVotes pollId userId) pollId optionId userId newVoteId
      else if poll.vote_type == "multiple" then
        if db.hasVoteFor pollId userId optionId then
          (Except.error ⟨"You have already voted for this option", 400⟩, db)
        else
          insertVote db pollId optionId userId newVoteId
      else
        insertVote db pollId optionId userId newVoteId

/-! ### Branch lemmas for castVote -/

theorem castVote_lookup_fails (db : DB) (pollId optionId userId now newVoteId : Nat)
    (h : db.findPoll pollId = none ∨ db.optionBelongs pollId optionId = false) :
    castVote db pollId optionId userId now newVoteId =
      (Except.error ⟨"Poll or option not found", 404⟩, db) := by
  unfold castVote
  rcases h with h | h
  · rw [h]
  · cases hfind : db.findPoll pollId with
    | none => rfl
    | some poll => simp [h]

theorem castVote_not_active (db : DB) (pollId optionId userId now newVoteId : Nat)
    (poll : Poll) (hfind : db.findPoll pollId = some poll)
    (hopt : db.optionBelongs pollId optionId = true)
    (hstatus : poll.status ≠ "active") :
    castVote db pollId optionId userId now newVoteId =
      (Except.error ⟨"Poll is not active", 400⟩, db) := by
  unfold castVote
  rw [hfind]
  simp [hopt, hstatus]

theorem castVote_expired (db : DB) (pollId optionId userId now newVoteId : Nat)
    (poll : Poll) (hfind : db.findPoll pollId = some poll)
    (hopt : db.optionBelongs pollId optionId = true)
    (hstatus : poll.status = "active")
    (hexp : pollExpired poll now = true) :
    castVote db pollId optionId userId now newVoteId =
      (Except.error ⟨"Poll has expired", 400⟩, db) := by
  unfold castVote
  rw [hfind]
  simp [hopt, hstatus, hexp]

theorem castVote_private (db : DB) (pollId optionId userId now newVoteId : Nat)
    (poll : Poll) (hfind : db.findPoll pollId = some poll)
    (hopt : db.optionBelongs pollId optionId = true)
    (hstatus : poll.status = "active")
    (hexp : pollExpired poll now = false)
    (hpriv : poll.is_public = false)
    (howner : userId ≠ poll.created_by) :
    castVote db pollId optionId userId now newVoteId =
      (Except.error ⟨"Poll not found", 404⟩, db) := by
  unfold castVote
  rw [hfind]
  simp [hopt, hstatus, hexp, hpriv, howner]

theorem castVote_limit (db : DB) (pollId optionId userId now newVoteId : Nat)
    (poll : Poll) (hfind : db.findPoll pollId = some poll)
    (hopt : db.optionBelongs pollId optionId = true)
    (hstatus : poll.status = "active")
    (hexp : pollExpired poll now = false)
    (hvis : poll.is_public = true ∨ userId = poll.created_by)
    (hge : poll.max_votes_per_user ≤ (db.userPollVotes pollId userId).length) :
    castVote db pollId optionId userId now newVoteId =
      (Except.error ⟨voteLimitMessage poll.max_votes_per_user, 400⟩, db) := by
  unfold castVote
  rw [hfind]
  have hvb : (!poll.is_public && userId != poll.created_by) = false := by
    rcases hvis with h | h <;> simp [h]
  simp [hopt, hstatus, hexp, hvb, hge]

theorem castVote_duplicate (db : DB) (pollId optionId userId now newVoteId : Nat)
    (poll : Poll) (hfind : db.findPoll pollId = some poll)
    (hopt : db.optionBelongs pollId optionId = true)
    (hstatus : poll.status = "active")
    (hexp : pollExpired poll now = false)
    (hvis : poll.is_public = true ∨ userId = poll.created_by)
    (hlt : (db.userPollVotes pollId userId).length < poll.max_votes_per_user)
    (htype : (poll.vote_type = "single" ∧ 0 < (db.userPollVotes pollId userId).length) ∨
      poll.vote_type = "multiple")
    (hdup : db.hasVoteFor pollId userId optionId = true) :
    castVote db pollId optionId userId now newVoteId =
      (Except.error ⟨"You have already voted for this option", 400⟩, db) := by
  unfold castVote
  rw [hfind]
  have hnle : ¬ poll.max_votes_per_user ≤ (db.userPollVotes pollId userId).length :=
    Nat.not_le.mpr hlt
  have hvb : (!poll.is_public && userId != poll.created_by) = false := by
    rcases hvis with h | h <;> simp [h]
  rcases htype with ⟨ht, hpos⟩ | ht
  · simp [hopt, hstatus, hexp, hvb, hnle, ht, hpos, hdup]
  · simp [hopt, hstatus, hexp, hvb, hnle, ht, hdup]

theorem castVote_single_replaces (db : DB) (pollId optionId userId now newVoteId : Nat)
    (poll : Poll) (hfind : db.findPoll pollId = some poll)
    (hopt : db.optionBelongs pollId optionId = true)
    (hstatus : poll.status = "active")
    (hexp : pollExpired poll now = false)
    (hvis : poll.is_public = true ∨ userId = poll.created_by)
    (hsingle : poll.vote_type = "single")
    (hpos : 0 < (db.userPollVotes pollId userId).length)
    (hlt : (db.userPollVotes pollId userId).length < poll.max_votes_per_user)
    (hdup : db.hasVoteFor pollId userId optionId = false) :
    castVote db pollId optionId userId now newVoteId =
      insertVote (db.deleteUserPollVotes pollId userId) pollId optionId userId newVoteId := by
  unfold castVote
  rw [hfind]
  have hnle : ¬ poll.max_votes_per_user ≤ (db.userPollVotes pollId userId).length :=
    Nat.not_le.mpr hlt
  have hvb : (!poll.is_public && userId != poll.created_by) = false := by
    rcases hvis with h | h <;> simp [h]
  simp [hopt, hstatus, hexp, hvb, hnle, hsingle, hpos, hdup]

theorem userPollVotes_after_replace (db : DB) (pollId optionId userId newVoteId : Nat) :
    ((insertVote (db.deleteUserPollVotes pollId userId) pollId optionId userId newVoteId).2).userPollVotes
        pollId userId = [⟨newVoteId, pollId, optionId, userId⟩] := by
  simp [insertVote, DB.deleteUserPollVotes, DB.userPollVotes, List.filter_append,
    List.filter_filter]

/-! ### Concrete states for the vote-casting claims -/

/-- A single-choice poll with the default max_votes_per_user = 1. -/
def pollC1 : Poll := ⟨1, "Favorite letter", none, "active", "single", 1, true, none, 7, 0⟩

/-- State for claim C1: voter 5 already voted for option 10 of poll 1. -/
def dbC1 : DB := ⟨[pollC1], [⟨10, 1, "A", 0⟩, ⟨11, 1, "B", 1⟩], [⟨100, 1, 10, 5⟩]⟩

/-- Same single-choice poll but with max_votes_per_user = 2, where the
replacement path is reachable. -/
def pollC1w : Poll := ⟨1, "Favorite letter", none, "active", "single", 2, true, none, 7, 0⟩

def dbC1w : DB := ⟨[pollC1w], [⟨10, 1, "A", 0⟩, ⟨11, 1, "B", 1⟩], [⟨100, 1, 10, 5⟩]⟩

/-- State for claim C3: single-choice poll, max 1, voter 5 voted for option 10. -/
def dbC3 : DB := ⟨[⟨1, "Favorite letter", none, "active", "single", 1, true, none, 7, 0⟩],
  [⟨10, 1, "A", 0⟩, ⟨11, 1, "B", 1⟩], [⟨100, 1, 10, 5⟩]⟩

/-- State for claim C3's amended theorem witness: multiple-choice poll with
max 2, voter 5 voted for option 10 and re-votes it. -/
def dbC3w : DB := ⟨[⟨1, "Favorite letters", none, "active", "multiple", 2, true, none, 7, 0⟩],
  [⟨10, 1, "A", 0⟩, ⟨11, 1, "B", 1⟩], [⟨100, 1, 10, 5⟩]⟩

/-- State for claim C8's witness: an active poll that expired at instant 50. -/
def dbC8 : DB := ⟨[⟨1, "Old poll", none, "active", "single", 1, true, some 50, 7, 0⟩],
  [⟨10, 1, "A", 0⟩, ⟨11, 1, "B", 1⟩], []⟩

/-- C1 counterexample: on a single-choice poll with max_votes_per_user = 1
(the smallest value the claim quantifies over), a voter who already holds a
vote for option 10 and casts a vote for the different option 11 is rejected
by the vote-limit check; the prior vote is not deleted and no new vote is
inserted, so the claimed replacement behaviour does not occur. -/
theorem castVote_single_replacement_fails_at_limit_one :
    castVote dbC1 1 11 5 0 101 =
      (Except.error ⟨"You can only vote 1 time on this poll", 400⟩, dbC1)
    ∧ dbC1.hasVoteFor 1 5 10 = true
    ∧ dbC1.hasVoteFor 1 5 11 = false
    ∧ pollC1.vote_type = "single" ∧ pollC1.max_votes_per_user = 1 := by
  refine ⟨?_, by decide, by decide, rfl, rfl⟩
  decide

/-- C1 (amended): on a single-choice poll, when a voter who already holds at
least one vote on the poll — but strictly fewer than max_votes_per_user —
casts a vote for an option they have not voted for, every prior vote of that
voter on the poll is deleted and the new vote inserted, leaving exactly one
vote row for that voter on the poll.  (With max_votes_per_user = 1 the
vote-limit check fires first and no replacement happens.) -/
theorem castVote_single_replacement_below_limit
    (db : DB) (pollId optionId userId now newVoteId : Nat)
    (poll : Poll) (hfind : db.findPoll pollId = some poll)
    (hopt : db.optionBelongs pollId optionId = true)
    (hstatus : poll.status = "active")
    (hexp : pollExpired poll now = false)
    (hvis : poll.is_public = true ∨ userId = poll.created_by)
    (hsingle : poll.vote_type = "single")
    (hpos : 0 < (db.userPollVotes pollId userId).length)
    (hlt : (db.userPollVotes pollId userId).length < poll.max_votes_per_user)
    (hdup : db.hasVoteFor pollId userId optionId = false) :
    (castVote db pollId optionId userId now newVoteId).1 =
      Except.ok ⟨newVoteId, pollId, optionId, userId⟩
    ∧ ((castVote db pollId optionId userId now newVoteId).2).userPollVotes pollId userId =
      [⟨newVoteId, pollId, optionId, userId⟩] := by
  rw [castVote_single_replaces db pollId optionId userId now newVoteId poll hfind hopt
    hstatus hexp hvis hsingle hpos hlt hdup]
  exact ⟨rfl, userPollVotes_after_replace db pollId optionId userId newVoteId⟩

/-- C1 witness: on the max_votes_per_user = 2 single-choice poll, voter 5's
vote for option 11 replaces the prior vote for option 10. -/
theorem castVote_single_replacement_below_limit_witness :
    (castVote dbC1w 1 11 5 0 101).1 = Except.ok ⟨101, 1, 11, 5⟩
    ∧ ((castVote dbC1w 1 11 5 0 101).2).userPollVotes 1 5 = [⟨101, 1, 11, 5⟩] :=
  castVote_single_replacement_below_limit dbC1w 1 11 5 0 101 pollC1w (by decide)
    (by decide) rfl rfl (Or.inl rfl) rfl (by decide) (by decide) (by decide)

/-- C3 counterexample: on a single-choice poll with max_votes_per_user = 1,
a voter who already voted for option 10 and casts a vote for the very same
option is rejected by the vote-limit check, not with the message
"You have already voted for this option" that the claim requires. -/
theorem castVote_same_option_wrong_error_at_limit :
    castVote dbC3 1 10 5 0 101 =
      (Except.error ⟨"You can only vote 1 time on this poll", 400⟩, dbC3)
    ∧ dbC3.hasVoteFor 1 5 10 = true
    ∧ "You can only vote 1 time on this poll" ≠ "You have already voted for this option" := by
  refine ⟨?_, by decide, by decide⟩
  decide

/-- C3 (amended): on a poll of either vote_type, a voter who already holds a
vote for the given option and whose current vote count on the poll is still
below max_votes_per_user receives "You have already voted for this option"
and the database state, in particular the set of vote rows, is unchanged.
(When the count has reached max_votes_per_user, the vote-limit error is
returned first instead; the state is unchanged in that case too.) -/
theorem castVote_same_option_rejected_below_limit
    (db : DB) (pollId optionId userId now newVoteId : Nat)
    (poll : Poll) (hfind : db.findPoll pollId = some poll)
    (hopt : db.optionBelongs pollId optionId = true)
    (hstatus : poll.status = "active")
    (hexp : pollExpired poll now = false)
    (hvis : poll.is_public = true ∨ userId = poll.created_by)
    (htype : poll.vote_type = "single" ∨ poll.vote_type = "multiple")
    (hlt : (db.userPollVotes pollId userId).length < poll.max_votes_per_user)
    (hdup : db.hasVoteFor pollId userId optionId = true) :
    castVote db pollId optionId userId now newVoteId =
      (Except.error ⟨"You have already voted for this option", 400⟩, db) := by
  have hpos : 0 < (db.userPollVotes pollId userId).length := by
    rcases List.any_eq_true.mp hdup with ⟨v, hv, hp⟩
    have hmem : v ∈ db.userPollVotes pollId userId := by
      simp only [Bool.and_assoc, Bool.and_eq_true, beq_iff_eq] at hp
      simp [DB.userPollVotes, List.mem_filter, hv, hp.1, hp.2.1]
    exact List.length_pos.mpr (fun hnil => by simp [hnil] at hmem)
  exact castVote_duplicate db pollId optionId userId now newVoteId poll hfind hopt
    hstatus hexp hvis hlt (htype.imp (fun h => ⟨h, hpos⟩) id) hdup

/-- C3 witness: on a multiple-choice poll with max 2, voter 5 re-voting
option 10 is rejected with the duplicate-option message and the state is
unchanged. -/
theorem castVote_same_option_rejected_below_limit_witness :
    castVote dbC3w 1 10 5 0 101 =
      (Except.error ⟨"You have already voted for this option", 400⟩, dbC3w) :=
  castVote_same_option_rejected_below_limit dbC3w 1 10 5 0 101
    ⟨1, "Favorite letters", none, "active", "multiple", 2, true, none, 7, 0⟩
    (by decide) (by decide) rfl rfl (Or.inl rfl) (Or.inr rfl) (by decide) (by decide)

/-- C8: the castVote preconditions are evaluated in the fixed order
lookup, active status, expiry, visibility, vote limit, duplicate option;
the first failing check alone determines the error, the vote-limit message
carries the limit, and every rejected request leaves the database (hence the
set of vote rows) unchanged. -/
theorem castVote_check_order (db : DB) (pollId optionId userId now newVoteId : Nat) :
    ((db.findPoll pollId = none ∨ db.optionBelongs pollId optionId = false) →
      castVote db pollId optionId userId now newVoteId =
        (Except.error ⟨"Poll or option not found", 404⟩, db))
    ∧ (∀ poll, db.findPoll pollId = some poll → db.optionBelongs pollId optionId = true →
        poll.status ≠ "active" →
        castVote db pollId optionId userId now newVoteId =
          (Except.error ⟨"Poll is not active", 400⟩, db))
    ∧ (∀ poll, db.findPoll pollId = some poll → db.optionBelongs pollId optionId = true →
        poll.status = "active" → pollExpired poll now = true →
        castVote db pollId optionId userId now newVoteId =
          (Except.error ⟨"Poll has expired", 400⟩, db))
    ∧ (∀ poll, db.findPoll pollId = some poll → db.optionBelongs pollId optionId = true →
        poll.status = "active" → pollExpired poll now = false →
        poll.is_public = false → userId ≠ poll.created_by →
        castVote db pollId optionId userId now newVoteId =
          (Except.error ⟨"Poll not found", 404⟩, db))
    ∧ (∀ poll, db.findPoll pollId = some poll → db.optionBelongs pollId optionId = true →
        poll.status = "active" → pollExpired poll now = false →
        (poll.is_public = true ∨ userId = poll.created_by) →
        poll.max_votes_per_user ≤ (db.userPollVotes pollId userId).length →
        castVote db pollId optionId userId now newVoteId =
          (Except.error ⟨voteLimitMessage poll.max_votes_per_user, 400⟩, db))
    ∧ (∀ poll, db.findPoll pollId = some poll → db.optionBelongs pollId optionId = true →
        poll.status = "active" → pollExpired poll now = false →
        (poll.is_public = true ∨ userId = poll.created_by) →
        (db.userPollVotes pollId userId).length < poll.max_votes_per_user →
        ((poll.vote_type = "single" ∧ 0 < (db.userPollVotes pollId userId).length) ∨
          poll.vote_type = "multiple") →
        db.hasVoteFor pollId userId optionId = true →
        castVote db pollId optionId userId now newVoteId =
          (Except.error ⟨"You have already voted for this option", 400⟩, db)) :=
  ⟨fun h => castVote_lookup_fails db pollId optionId userId now newVoteId h,
   fun poll h1 h2 h3 => castVote_not_active db pollId optionId userId now newVoteId poll h1 h2 h3,
   fun poll h1 h2 h3 h4 => castVote_expired db pollId optionId userId now newVoteId poll h1 h2 h3 h4,
   fun poll h1 h2 h3 h4 h5 h6 =>
     castVote_private db pollId optionId userId now newVoteId poll h1 h2 h3 h4 h5 h6,
   fun poll h1 h2 h3 h4 h5 h6 =>
     castVote_limit db pollId optionId userId now newVoteId poll h1 h2 h3 h4 h5 h6,
   fun poll h1 h2 h3 h4 h5 h6 h7 h8 =>
     castVote_duplicate db pollId optionId userId now newVoteId poll h1 h2 h3 h4 h5 h6 h7 h8⟩

/-- C8 witness: voting on the poll that expired at instant 50, at instant 99,
fails with the expiry error and leaves the database unchanged. -/
theorem castVote_check_order_witness :
    castVote dbC8 1 10 5 99 101 = (Except.error ⟨"Poll has expired", 400⟩, dbC8) :=
  (castVote_check_order dbC8 1 10 5 99 101).2.2.1
    ⟨1, "Old poll", none, "active", "single", 1, true, some 50, 7, 0⟩
    (by decide) (by decide) rfl (by decide)

/-! ### The SQL tally functions -/

/-- `COUNT(v.id)` for one option under `LEFT JOIN votes v ON po.id = v.option_id`:
votes are joined by option id alone. -/
def optionVoteCount (db : DB) (optionId : Nat) : Nat :=
  (db.votes.filter (fun v => v.option_id == optionId)).length

/-- `SELECT COUNT(*) FROM votes WHERE poll_id = poll_uuid` -/
def pollVoteTotal (db : DB) (pollId : Nat) : Nat :=
  (db.votes.filter (fun v => v.poll_id == pollId)).length

/-- `ROUND(x, 2)` on NUMERIC.  Postgres rounds half away from zero; every
quantity rounded here is nonnegative, where that agrees with `round`. -/
def round2 (q : ℚ) : ℚ := ((round (q * 100) : ℤ) : ℚ) / 100

/-- One row of the result set of get_poll_results. -/
structure TallyRow where
  option_id : Nat
  option_text : String
  vote_count : Nat
  percentage : ℚ
deriving DecidableEq

/-- The sort key of schema.sql's get_poll_results:
`ORDER BY po.order_index, vote_count DESC`. -/
def schemaTallyOrder (db : DB) (a b : PollOption) : Prop :=
  a.order_index < b.order_index ∨
    (a.order_index = b.order_index ∧ optionVoteCount db b.id ≤ optionVoteCount db a.id)

instance (db : DB) : DecidableRel (schemaTallyOrder db) := fun a b => by
  unfold schemaTallyOrder
  infer_instance

instance (db : DB) : IsTotal PollOption (schemaTallyOrder db) :=
  ⟨by intro a b; unfold schemaTallyOrder; omega⟩

instance (db : DB) : IsTrans PollOption (schemaTallyOrder db) :=
  ⟨by intro a b c; unfold schemaTallyOrder; omega⟩

/-- get_poll_results as defined in database/schema.sql: per-option vote
counts joined by option id, total as the count of the poll's vote rows,
percentage `ROUND(count/total*100, 2)` with 0 when the total is 0, rows
ordered by `po.order_index, vote_count DESC`. -/
def get_poll_results (db : DB) (pollId : Nat) : List TallyRow :=
  (List.insertionSort (schemaTallyOrder db)
      (db.poll_options.filter (fun o => o.poll_id == pollId))).map
    (fun o =>
      ⟨o.id, o.text, optionVoteCount db o.id,
        if pollVoteTotal db pollId = 0 then 0
        else round2 ((optionVoteCount db o.id : ℚ) / (pollVoteTotal db pollId : ℚ) * 100)⟩)

/-- The CTE ordering `ORDER BY po.order_index` of migration.sql. -/
def orderIndexOrder (a b : PollOption) : Prop := a.order_index ≤ b.order_index

instance : DecidableRel orderIndexOrder := fun a b => by
  unfold orderIndexOrder
  infer_instance

instance : IsTotal PollOption orderIndexOrder := ⟨by intro a b; unfold orderIndexOrder; omega⟩

instance : IsTrans PollOption orderIndexOrder := ⟨by intro a b c; unfold orderIndexOrder; omega⟩

/-- The final sort key of migration.sql's get_poll_results:
`ORDER BY vc.vote_count DESC, vc.option_text ASC`. -/
def migrationRowOrder (a b : TallyRow) : Prop :=
  b.vote_count < a.vote_count ∨ (a.vote_count = b.vote_count ∧ a.option_text ≤ b.option_text)

instance : DecidableRel migrationRowOrder := fun a b => by
  unfold migrationRowOrder
  infer_instance

instance : IsTotal TallyRow migrationRowOrder := by
  constructor
  intro a b
  unfold migrationRowOrder
  rcases Nat.lt_trichotomy a.vote_count b.vote_count with h | h | h
  · exact Or.inr (Or.inl h)
  · rcases le_total a.option_text b.option_text with ht | ht
    · exact Or.inl (Or.inr ⟨h, ht⟩)
    · exact Or.inr (Or.inr ⟨h.symm, ht⟩)
  · exact Or.inl (Or.inl h)

instance : IsTrans TallyRow migrationRowOrder := by
  constructor
  intro a b c hab hbc
  unfold migrationRowOrder at *
  rcases hab with hab | ⟨hab, hab2⟩
  · rcases hbc with hbc | ⟨hbc, _⟩
    · exact Or.inl (hbc.trans hab)
    · exact Or.inl (hbc ▸ hab)
  · rcases hbc with hbc | ⟨hbc, hbc2⟩
    · exact Or.inl (hab ▸ hbc)
    · exact Or.inr ⟨hab.trans hbc, hab2.trans hbc2⟩

/-- get_poll_results as redefined in database/migration.sql: counts are
computed per option (grouped in display order), the total is the sum of the
per-option counts, and the final result set is ordered by
`vote_count DESC, option_text ASC`. -/
def get_poll_results_migration (db : DB) (pollId : Nat) : List TallyRow :=
  let opts := List.insertionSort orderIndexOrder
    (db.poll_options.filter (fun o => o.poll_id == pollId))
  let counts := opts.map (fun o => (o, optionVoteCount db o.id))
  let total := (counts.map (fun oc => oc.2)).sum
  List.insertionSort migrationRowOrder
    (counts.map (fun oc =>
      ⟨oc.1.id, oc.1.text, oc.2,
        if 0 < total then round2 ((oc.2 : ℚ) / (total : ℚ) * 100) else 0⟩))

/-- State for claim C2's counterexample: option "A" has display order 0 and
no votes, option "B" display order 1 and one vote. -/
def dbC2 : DB := ⟨[⟨1, "Letters", none, "active", "single", 1, true, none, 7, 0⟩],
  [⟨10, 1, "A", 0⟩, ⟨11, 1, "B", 1⟩], [⟨100, 1, 11, 5⟩]⟩

/-- C2 counterexample: schema.sql's get_poll_results orders by order_index
first, so the zero-vote option "A" precedes the one-vote option "B" and the
claimed descending-vote-count ordering fails. -/
theorem get_poll_results_not_sorted_by_votes :
    (get_poll_results dbC2 1).map (fun r => r.vote_count) = [0, 1]
    ∧ ¬ List.Pairwise (fun a b : TallyRow => b.vote_count ≤ a.vote_count)
        (get_poll_results dbC2 1) := by
  constructor
  · decide
  · decide

/-- C2 (amended): the descending-vote-count ordering holds for the
migration.sql version of get_poll_results, which orders by vote count
descending with ties broken by option text ascending; the schema.sql
version instead orders primarily by option order_index ascending, so for it
the property fails. -/
theorem get_poll_results_migration_sorted_desc (db : DB) (pollId : Nat) :
    List.Pairwise (fun a b : TallyRow => b.vote_count ≤ a.vote_count)
      (get_poll_results_migration db pollId) := by
  unfold get_poll_results_migration
  refine List.Pairwise.imp ?_ (List.sorted_insertionSort migrationRowOrder _)
  intro a b hab
  rcases hab with h | ⟨h, _⟩
  · omega
  · omega

/-! ### Counting and rounding lemmas for the percentage claim -/

theorem sum_map_add_nat {α : Type} (l : List α) (f g : α → Nat) :
    (l.map (fun a => f a + g a)).sum = (l.map f).sum + (l.map g).sum := by
  induction l with
  | nil => rfl
  | cons a t ih => simp only [List.map_cons, List.sum_cons, ih]; omega

theorem sum_ite_one (opts : List PollOption) (x : Nat)
    (hnd : opts.Pairwise (fun a b => a.id ≠ b.id)) :
    (opts.map (fun o => if (x == o.id : Bool) then 1 else 0)).sum
      = if (opts.any (fun o => x == o.id) : Bool) then 1 else 0 := by
  induction opts with
  | nil => simp
  | cons o rest ih =>
    have hnd1 := List.pairwise_cons.mp hnd
    simp only [List.map_cons, List.sum_cons, List.any_cons]
    by_cases hx : x = o.id
    · have hrest : (rest.map (fun o2 => if (x == o2.id : Bool) then 1 else 0)).sum = 0 := by
        apply List.sum_eq_zero
        intro n hn
        rcases List.mem_map.mp hn with ⟨o2, ho2, rfl⟩
        have hne : x ≠ o2.id := by rw [hx]; exact hnd1.1 o2 ho2
        simp [hne]
      have hbx : (x == o.id) = true := beq_iff_eq.mpr hx
      simp only [hbx, Bool.true_or, if_true]
      simpa using hrest
    · have hb : (x == o.id) = false := beq_eq_false_iff_ne.mpr hx
      simp only [hb, Bool.false_eq_true, if_false, Bool.false_or, Nat.zero_add]
      exact ih hnd1.2

theorem countP_partition (votes : List Vote) (opts : List PollOption) (pollId : Nat)
    (hnd : opts.Pairwise (fun a b => a.id ≠ b.id))
    (hcons : ∀ v ∈ votes,
      ((v.poll_id == pollId : Bool)) = opts.any (fun o => v.option_id == o.id)) :
    (opts.map (fun o => votes.countP (fun v => v.option_id == o.id))).sum
      = votes.countP (fun v => v.poll_id == pollId) := by
  induction votes with
  | nil => simp
  | cons v vs ih =>
    have hv := hcons v (List.mem_cons_self v vs)
    have ih2 := ih (fun w hw => hcons w (List.mem_cons_of_mem v hw))
    simp only [List.countP_cons]
    rw [sum_map_add_nat, ih2, sum_ite_one opts v.option_id hnd, ← hv]

theorem abs_round2_sub (q : ℚ) : |round2 q - q| ≤ 1 / 200 := by
  unfold round2
  have h : |q * 100 - round (q * 100)| ≤ 1 / 2 := abs_sub_round (q * 100)
  have heq : ((round (q * 100) : ℤ) : ℚ) / 100 - q
      = -(q * 100 - ((round (q * 100) : ℤ) : ℚ)) / 100 := by ring
  rw [heq, abs_div, abs_neg]
  rw [show |(100 : ℚ)| = 100 by norm_num]
  linarith

theorem sum_abs_bound {α : Type} (l : List α) (f g : α → ℚ) (ε : ℚ)
    (h : ∀ a ∈ l, |f a - g a| ≤ ε) :
    |(l.map f).sum - (l.map g).sum| ≤ l.length * ε := by
  induction l with
  | nil => simp
  | cons a t ih =>
    have h1 := h a (List.mem_cons_self a t)
    have h2 := ih (fun b hb => h b (List.mem_cons_of_mem a hb))
    simp only [List.map_cons, List.sum_cons, List.length_cons]
    have heq : f a + (t.map f).sum - (g a + (t.map g).sum)
        = (f a - g a) + ((t.map f).sum - (t.map g).sum) := by ring
    rw [heq]
    calc |(f a - g a) + ((t.map f).sum - (t.map g).sum)|
        ≤ |f a - g a| + |(t.map f).sum - (t.map g).sum| := abs_add _ _
      _ ≤ ε + t.length * ε := add_le_add h1 h2
      _ = (t.length + 1) * ε := by ring
      _ = ((t.length + 1 : Nat) : ℚ) * ε := by push_cast; ring

theorem sum_map_cast_mul (counts : List Nat) (k : ℚ) :
    (counts.map (fun c : Nat => (c : ℚ) * k)).sum = ((counts.sum : ℕ) : ℚ) * k := by
  induction counts with
  | nil => simp
  | cons c t ih =>
    simp only [List.map_cons, List.sum_cons, ih]
    push_cast
    ring

theorem sum_pct_exact (counts : List Nat) (T : Nat) (hT : 0 < T)
    (hsum : counts.sum = T) :
    (counts.map (fun c : Nat => (c : ℚ) / (T : ℚ) * 100)).sum = 100 := by
  have hTne : (T : ℚ) ≠ 0 := Nat.cast_ne_zero.mpr hT.ne'
  have hfun : (fun c : Nat => (c : ℚ) / (T : ℚ) * 100)
      = fun c : Nat => (c : ℚ) * (100 / (T : ℚ)) := by
    funext c
    ring
  rw [hfun, sum_map_cast_mul, hsum]
  field_simp

theorem sum_round2_pct (counts : List Nat) (T : Nat) (hT : 0 < T)
    (hsum : counts.sum = T) :
    |(counts.map (fun c : Nat => round2 ((c : ℚ) / (T : ℚ) * 100))).sum - 100|
      ≤ (counts.length : ℚ) / 200 := by
  have hq := sum_pct_exact counts T hT hsum
  have hb := sum_abs_bound counts (fun c : Nat => round2 ((c : ℚ) / (T : ℚ) * 100))
    (fun c : Nat => (c : ℚ) / (T : ℚ) * 100) (1 / 200)
    (fun c _ => abs_round2_sub ((c : ℚ) / (T : ℚ) * 100))
  rw [hq] at hb
  calc |(counts.map (fun c : Nat => round2 ((c : ℚ) / (T : ℚ) * 100))).sum - 100|
      ≤ (counts.length : ℚ) * (1 / 200) := hb
    _ = (counts.length : ℚ) / 200 := by ring

/-- State for claim C5's witness: three votes over two options of poll 1. -/
def dbC5 : DB := ⟨[⟨1, "Letters", none, "active", "multiple", 2, true, none, 7, 0⟩],
  [⟨10, 1, "A", 0⟩, ⟨11, 1, "B", 1⟩],
  [⟨100, 1, 10, 5⟩, ⟨101, 1, 11, 6⟩, ⟨102, 1, 10, 6⟩]⟩

/-- C5: in get_poll_results every entry's percentage is
`ROUND(vote_count / totalVotes * 100, 2)` when the poll has votes and 0 when
it has none; consequently, whenever every vote row of the poll corresponds
to exactly one of the poll's (distinct-id) options, the percentages sum to
100 up to the accumulated rounding error (at most 1/200 per option), and all
vanish when totalVotes = 0. -/
theorem get_poll_results_percentage_spec (db : DB) (pollId : Nat)
    (hnd : (db.poll_options.filter (fun o => o.poll_id == pollId)).Pairwise
      (fun a b => a.id ≠ b.id))
    (hcons : ∀ v ∈ db.votes,
      ((v.poll_id == pollId : Bool))
        = (db.poll_options.filter (fun o => o.poll_id == pollId)).any
            (fun o => v.option_id == o.id)) :
    (∀ r ∈ get_poll_results db pollId,
      r.percentage = if pollVoteTotal db pollId = 0 then 0
        else round2 ((r.vote_count : ℚ) / (pollVoteTotal db pollId : ℚ) * 100))
    ∧ (pollVoteTotal db pollId = 0 →
        ∀ r ∈ get_poll_results db pollId, r.percentage = 0)
    ∧ (0 < pollVoteTotal db pollId →
        |((get_poll_results db pollId).map (fun r => r.percentage)).sum - 100|
          ≤ ((get_poll_results db pollId).length : ℚ) / 200) := by
  refine ⟨?_, ?_, ?_⟩
  · intro r hr
    unfold get_poll_results at hr
    rcases List.mem_map.mp hr with ⟨o, _, rfl⟩
    rfl
  · intro h0 r hr
    unfold get_poll_results at hr
    rcases List.mem_map.mp hr with ⟨o, _, rfl⟩
    simp [h0]
  · intro hT
    have hTne : pollVoteTotal db pollId ≠ 0 := hT.ne'
    unfold get_poll_results
    rw [List.map_map, List.length_map]
    have hmapeq :
        (List.insertionSort (schemaTallyOrder db)
            (db.poll_options.filter (fun o => o.poll_id == pollId))).map
          ((fun r : TallyRow => r.percentage) ∘ (fun o =>
            (⟨o.id, o.text, optionVoteCount db o.id,
              if pollVoteTotal db pollId = 0 then 0
              else round2 ((optionVoteCount db o.id : ℚ) /
                (pollVoteTotal db pollId : ℚ) * 100)⟩ : TallyRow)))
        = ((List.insertionSort (schemaTallyOrder db)
            (db.poll_options.filter (fun o => o.poll_id == pollId))).map
              (fun o => optionVoteCount db o.id)).map
            (fun c : Nat => round2 ((c : ℚ) / (pollVoteTotal db pollId : ℚ) * 100)) := by
      rw [List.map_map]
      apply List.map_congr_left
      intro o _
      simp [hTne]
    rw [hmapeq]
    have hsum : ((List.insertionSort (schemaTallyOrder db)
        (db.poll_options.filter (fun o => o.poll_id == pollId))).map
          (fun o => optionVoteCount db o.id)).sum = pollVoteTotal db pollId := by
      have hperm := List.perm_insertionSort (schemaTallyOrder db)
        (db.poll_options.filter (fun o => o.poll_id == pollId))
      rw [(hperm.map (fun o => optionVoteCount db o.id)).sum_eq]
      have h2 : ((db.poll_options.filter (fun o => o.poll_id == pollId)).map
          (fun o => optionVoteCount db o.id))
          = (db.poll_options.filter (fun o => o.poll_id == pollId)).map
              (fun o => db.votes.countP (fun v => v.option_id == o.id)) := by
        apply List.map_congr_left
        intro o _
        unfold optionVoteCount
        rw [← List.countP_eq_length_filter]
      rw [h2, countP_partition db.votes _ pollId hnd hcons]
      unfold pollVoteTotal
      rw [← List.countP_eq_length_filter]
    rw [← List.length_map (List.insertionSort (schemaTallyOrder db)
      (db.poll_options.filter (fun o => o.poll_id == pollId)))
      (fun o => optionVoteCount db o.id)]
    exact sum_round2_pct _ _ hT hsum

/-- C5 witness: the percentage properties instantiated on a poll with three
votes over two options (counts 2 and 1, percentages 66.67 and 33.33). -/
theorem get_poll_results_percentage_spec_witness :
    (∀ r ∈ get_poll_results dbC5 1,
      r.percentage = if pollVoteTotal dbC5 1 = 0 then 0
        else round2 ((r.vote_count : ℚ) / (pollVoteTotal dbC5 1 : ℚ) * 100))
    ∧ (pollVoteTotal dbC5 1 = 0 →
        ∀ r ∈ get_poll_results dbC5 1, r.percentage = 0)
    ∧ (0 < pollVoteTotal dbC5 1 →
        |((get_poll_results dbC5 1).map (fun r => r.percentage)).sum - 100|
          ≤ ((get_poll_results dbC5 1).length : ℚ) / 200) :=
  get_poll_results_percentage_spec dbC5 1 (by decide) (by decide)

/-! ### Poll creation: lib/actions/polls.ts createPoll and POST /api/polls -/

/-- JS `value || default` for an optional string field: undefined and the
empty string are falsy. -/
def jsOrString (v : Option String) (d : String) : String :=
  match v with
  | some s => if s = "" then d else s
  | none => d

/-- JS `value || default` for an optional numeric field: undefined and 0 are
falsy. -/
def jsOrNat (v : Option Nat) (d : Nat) : Nat :=
  match v with
  | some n => if n = 0 then d else n
  | none => d

/-- JS `expires_at || null`. -/
def jsOrExpiry (v : Option Nat) : Option Nat :=
  match v with
  | some n => if n = 0 then none else some n
  | none => none

/-- JS String.prototype.trim: strip leading and trailing whitespace.
Defined structurally over the character list so that concrete instances
compute by kernel reduction. -/
def jsTrim (s : String) : String :=
  ⟨((s.data.dropWhile Char.isWhitespace).reverse.dropWhile Char.isWhitespace).reverse⟩

/-- JS `description?.trim() || null`. -/
def jsDescription (v : Option String) : Option String :=
  match v with
  | some s => if jsTrim s = "" then none else some (jsTrim s)
  | none => none

/-- The CreatePollData argument of the createPoll server action.  The
`allow_multiple_votes` legacy flag is inserted verbatim into a column no
modelled code reads again and is omitted. -/
structure CreatePollData where
  title : String
  description : Option String
  vote_type : Option String
  max_votes_per_user : Option Nat
  is_public : Option Bool
  expires_at : Option Nat
  options : List String
deriving DecidableEq

/-- The createPoll server action of lib/actions/polls.ts for an
authenticated user, translated check-for-check.  `newPollId` is the id the
storage layer assigns to the inserted poll row, `optionIdBase` the first of
the consecutive ids assigned to inserted option rows, and the two flags
inject storage failures of the poll insert and the option insert. -/
def createPoll (db : DB) (d : CreatePollData) (userId newPollId optionIdBase : Nat)
    (pollInsertFails optionInsertFails : Bool) : Except String Nat × DB :=
  if jsTrim d.title = "" ∨ d.title.length < 3 then
    (Except.error "Poll title must be at least 3 characters long", db)
  else if d.title.length > 200 then
    (Except.error "Poll title must be less than 200 characters", db)
  else if (d.description.getD "").length > 1000 then
    (Except.error "Poll description must be less than 1000 characters", db)
  else if d.options.length < 2 then
    (Except.error "Poll must have at least 2 options", db)
  else if d.options.length > 10 then
    (Except.error "Poll cannot have more than 10 options", db)
  else
    let validOptions := (d.options.map jsTrim).filter
      (fun o => decide (0 < o.length ∧ o.length ≤ 200))
    if validOptions.length < 2 then
      (Except.error "Poll must have at least 2 valid options", db)
    else if pollInsertFails then
      (Except.error "Failed to create poll", db)
    else
      let poll : Poll := ⟨newPollId, jsTrim d.title, jsDescription d.description, "active",
        jsOrString d.vote_type "single", jsOrNat d.max_votes_per_user 1,
        d.is_public ≠ some false, jsOrExpiry d.expires_at, userId, 0⟩
      let db1 : DB := { db with polls := db.polls ++ [poll] }
      if optionInsertFails then
        (Except.error "Failed to create poll options",
          { db1 with polls := db1.polls.filter (fun p => p.id != newPollId) })
      else
        let newOpts := validOptions.enum.map
          (fun ie => PollOption.mk (optionIdBase + ie.1) newPollId ie.2 ie.1)
        (Except.ok newPollId, { db1 with poll_options := db1.poll_options ++ newOpts })

/-- The body of POST /api/polls. -/
structure ApiCreateBody where
  title : Option String
  description : Option String
  status : Option String
  vote_type : Option String
  max_votes_per_user : Option Nat
  is_public : Option Bool
  expires_at : Option Nat
  options : Option (List String)
deriving DecidableEq

/-- POST /api/polls for an authenticated user, translated check-for-check
from the route handler.  Destructuring defaults apply only to absent
fields (status "draft", vote_type "single", max_votes_per_user 1,
is_public true). -/
def createPollApi (db : DB) (b : ApiCreateBody) (userId newPollId optionIdBase now : Nat)
    (pollInsertFails optionInsertFails : Bool) : Except ApiError Nat × DB :=
  if b.title = none ∨ (jsTrim (b.title.getD "")).length < 3 then
    (Except.error ⟨"Title must be at least 3 characters long", 400⟩, db)
  else if (b.title.getD "").length > 200 then
    (Except.error ⟨"Title must be less than 200 characters", 400⟩, db)
  else if (b.description.getD "").length > 1000 then
    (Except.error ⟨"Description must be less than 1000 characters", 400⟩, db)
  else if b.options = none ∨ (b.options.getD []).length < 2 then
    (Except.error ⟨"At least 2 options are required", 400⟩, db)
  else
    let opts := b.options.getD []
    let validOptions := opts.filter (fun o => jsTrim o != "")
    if validOptions.length < 2 then
      (Except.error ⟨"At least 2 valid options are required", 400⟩, db)
    else if validOptions.length > 10 then
      (Except.error ⟨"Maximum 10 options allowed", 400⟩, db)
    else if (b.vote_type.getD "single") = "multiple" ∧ (b.max_votes_per_user.getD 1) = 0 then
      (Except.error ⟨"Max votes per user must be at least 1 for multiple choice polls", 400⟩, db)
    else if (b.max_votes_per_user.getD 1) > validOptions.length then
      (Except.error ⟨"Max votes per user cannot exceed number of options", 400⟩, db)
    else if (match jsOrExpiry b.expires_at with
        | some t => decide (t ≤ now)
        | none => false) then
      (Except.error ⟨"Expiration date must be in the future", 400⟩, db)
    else if pollInsertFails then
      (Except.error ⟨"Failed to create poll", 500⟩, db)
    else
      let poll : Poll := ⟨newPollId, jsTrim (b.title.getD ""), jsDescription b.description,
        b.status.getD "draft", b.vote_type.getD "single", b.max_votes_per_user.getD 1,
        b.is_public.getD true, jsOrExpiry b.expires_at, userId, 0⟩
      let db1 : DB := { db with polls := db.polls ++ [poll] }
      if optionInsertFails then
        (Except.error ⟨"Failed to create poll options", 500⟩,
          { db1 with polls := db1.polls.filter (fun p => p.id != newPollId) })
      else
        let newOpts := validOptions.enum.map
          (fun ie => PollOption.mk (optionIdBase + ie.1) newPollId (jsTrim ie.2) ie.1)
        (Except.ok newPollId, { db1 with poll_options := db1.poll_options ++ newOpts })


/-- Data for claim C6's witness: a valid create request. -/
def dC6 : CreatePollData := ⟨"My poll", none, none, none, none, none, ["A", "B"]⟩

/-- Body for claim C6's witness on the API route. -/
def bC6 : ApiCreateBody := ⟨some "My poll", none, none, none, none, none, none, some ["A", "B"]⟩

/-- C6: in both createPoll implementations, when every validation check
passes and the poll insert succeeds but the option insert fails, the handler
deletes the poll row again (compensating action): the resulting database is
exactly the initial one, so no poll with zero options persists. -/
theorem createPoll_option_failure_compensates
    (db : DB) (d : CreatePollData) (b : ApiCreateBody)
    (userId newPollId optionIdBase now : Nat)
    (hfresh : ∀ p ∈ db.polls, p.id ≠ newPollId) :
    (¬(jsTrim d.title = "" ∨ d.title.length < 3) →
     ¬(d.title.length > 200) →
     ¬((d.description.getD "").length > 1000) →
     ¬(d.options.length < 2) →
     ¬(d.options.length > 10) →
     ¬(((d.options.map jsTrim).filter
         (fun o => decide (0 < o.length ∧ o.length ≤ 200))).length < 2) →
      createPoll db d userId newPollId optionIdBase false true
        = (Except.error "Failed to create poll options", db))
    ∧ (¬(b.title = none ∨ (jsTrim (b.title.getD "")).length < 3) →
       ¬((b.title.getD "").length > 200) →
       ¬((b.description.getD "").length > 1000) →
       ¬(b.options = none ∨ (b.options.getD []).length < 2) →
       ¬(((b.options.getD []).filter (fun o => jsTrim o != "")).length < 2) →
       ¬(((b.options.getD []).filter (fun o => jsTrim o != "")).length > 10) →
       ¬((b.vote_type.getD "single") = "multiple" ∧ (b.max_votes_per_user.getD 1) = 0) →
       ¬((b.max_votes_per_user.getD 1) > ((b.options.getD []).filter (fun o => jsTrim o != "")).length) →
       (match jsOrExpiry b.expires_at with
         | some t => decide (t ≤ now)
         | none => false) = false →
       createPollApi db b userId newPollId optionIdBase now false true
         = (Except.error ⟨"Failed to create poll options", 500⟩, db)) := by
  have hkeep : db.polls.filter (fun p => p.id != newPollId) = db.polls := by
    apply List.filter_eq_self.mpr
    intro p hp
    exact bne_iff_ne.mpr (hfresh p hp)
  constructor
  · intro h1 h2 h3 h4 h5 h6
    unfold createPoll
    rw [if_neg h1]
    simp only [if_neg h2, if_neg h3, if_neg h4, if_neg h5, if_neg h6, Bool.false_eq_true,
      if_false, if_true, List.filter_append, hkeep, bne_self_eq_false, List.filter_cons,
      List.filter_nil, List.append_nil]
  · intro h1 h2 h3 h4 h5 h6 h7 h8 hexp
    unfold createPollApi
    rw [if_neg h1]
    simp only [if_neg h2, if_neg h3, if_neg h4, if_neg h5, if_neg h6, if_neg h7, if_neg h8,
      hexp, Bool.false_eq_true, if_false, if_true, List.filter_append, hkeep,
      bne_self_eq_false, List.filter_cons, List.filter_nil, List.append_nil]

/-- C6 witness: with a fresh poll id on the empty database, an injected
option-insert failure leaves the database empty in both implementations. -/
theorem createPoll_option_failure_compensates_witness :
    (createPoll ⟨[], [], []⟩ dC6 7 1 50 false true
      = (Except.error "Failed to create poll options", ⟨[], [], []⟩))
    ∧ (createPollApi ⟨[], [], []⟩ bC6 7 1 50 0 false true
      = (Except.error ⟨"Failed to create poll options", 500⟩, ⟨[], [], []⟩)) :=
  ⟨(createPoll_option_failure_compensates ⟨[], [], []⟩ dC6 bC6 7 1 50 0
      (by intro p hp; cases hp)).1 (by decide) (by decide) (by decide) (by decide)
      (by decide) (by decide),
   (createPoll_option_failure_compensates ⟨[], [], []⟩ dC6 bC6 7 1 50 0
      (by intro p hp; cases hp)).2 (by decide) (by decide) (by decide)
      (by decide) (by decide) (by decide) (by decide) (by decide) (by decide)⟩


/-- Data for claim C7's witness: exactly one valid option after trimming. -/
def dC7 : CreatePollData := ⟨"My poll", none, none, none, none, none, ["A", "   "]⟩

/-- Body for claim C7's witness on the API route. -/
def bC7 : ApiCreateBody := ⟨some "My poll", none, none, none, none, none, none, some ["A", "   "]⟩

/-- C7: in both createPoll implementations, a request that passes the title
and description checks but whose option list holds fewer than 2 or more than
10 valid (non-blank after trimming) options fails with one of the
option-count error messages and leaves the database unchanged, so no poll
row persists; in particular, a request with exactly 1 valid option after
trimming (its raw option count within the bounds the earlier raw-count
checks admit) fails with precisely the minimum-valid-options error. -/
theorem createPoll_option_count_validation
    (db : DB) (d : CreatePollData) (b : ApiCreateBody)
    (userId newPollId optionIdBase now : Nat) (pf of pf2 of2 : Bool) :
    (¬(jsTrim d.title = "" ∨ d.title.length < 3) →
     ¬(d.title.length > 200) →
     ¬((d.description.getD "").length > 1000) →
     (((d.options.map jsTrim).filter (fun o => o != "")).length < 2 ∨
       ((d.options.map jsTrim).filter (fun o => o != "")).length > 10) →
      (createPoll db d userId newPollId optionIdBase pf of).2 = db
      ∧ ((createPoll db d userId newPollId optionIdBase pf of).1
            = Except.error "Poll must have at least 2 options"
        ∨ (createPoll db d userId newPollId optionIdBase pf of).1
            = Except.error "Poll cannot have more than 10 options"
        ∨ (createPoll db d userId newPollId optionIdBase pf of).1
            = Except.error "Poll must have at least 2 valid options"))
    ∧ (¬(b.title = none ∨ (jsTrim (b.title.getD "")).length < 3) →
       ¬((b.title.getD "").length > 200) →
       ¬((b.description.getD "").length > 1000) →
       (((b.options.getD []).filter (fun o => jsTrim o != "")).length < 2 ∨
         ((b.options.getD []).filter (fun o => jsTrim o != "")).length > 10) →
      (createPollApi db b userId newPollId optionIdBase now pf2 of2).2 = db
      ∧ ((createPollApi db b userId newPollId optionIdBase now pf2 of2).1
            = Except.error ⟨"At least 2 options are required", 400⟩
        ∨ (createPollApi db b userId newPollId optionIdBase now pf2 of2).1
            = Except.error ⟨"At least 2 valid options are required", 400⟩
        ∨ (createPollApi db b userId newPollId optionIdBase now pf2 of2).1
            = Except.error ⟨"Maximum 10 options allowed", 400⟩))
    ∧ (¬(jsTrim d.title = "" ∨ d.title.length < 3) →
       ¬(d.title.length > 200) →
       ¬((d.description.getD "").length > 1000) →
       ¬(d.options.length < 2) →
       ¬(d.options.length > 10) →
       ((d.options.map jsTrim).filter (fun o => o != "")).length = 1 →
      createPoll db d userId newPollId optionIdBase pf of
        = (Except.error "Poll must have at least 2 valid options", db))
    ∧ (¬(b.title = none ∨ (jsTrim (b.title.getD "")).length < 3) →
       ¬((b.title.getD "").length > 200) →
       ¬((b.description.getD "").length > 1000) →
       ¬(b.options = none ∨ (b.options.getD []).length < 2) →
       ((b.options.getD []).filter (fun o => jsTrim o != "")).length = 1 →
      createPollApi db b userId newPollId optionIdBase now pf2 of2
        = (Except.error ⟨"At least 2 valid options are required", 400⟩, db)) := by
  refine ⟨?_, ?_, ?_, ?_⟩
  rotate_right 2
  · intro h1 h2 h3 h4 h5 hone
    unfold createPoll
    rw [if_neg h1, if_neg h2, if_neg h3, if_neg h4, if_neg h5]
    have hmono : ((d.options.map jsTrim).filter
        (fun o => decide (0 < o.length ∧ o.length ≤ 200))).length
        ≤ ((d.options.map jsTrim).filter (fun o => o != "")).length := by
      rw [← List.countP_eq_length_filter, ← List.countP_eq_length_filter]
      apply List.countP_mono_left
      intro a _ hp
      have hp2 := of_decide_eq_true hp
      apply bne_iff_ne.mpr
      intro he
      rw [he] at hp2
      exact absurd hp2.1 (by decide)
    have c6 : ((d.options.map jsTrim).filter
        (fun o => decide (0 < o.length ∧ o.length ≤ 200))).length < 2 := by omega
    rw [if_pos c6]
  · intro h1 h2 h3 h4 hone
    unfold createPollApi
    rw [if_neg h1, if_neg h2, if_neg h3, if_neg h4]
    have c5 : ((b.options.getD []).filter (fun o => jsTrim o != "")).length < 2 := by omega
    rw [if_pos c5]
  · intro h1 h2 h3 hbad
    unfold createPoll
    rw [if_neg h1, if_neg h2, if_neg h3]
    by_cases c4 : d.options.length < 2
    · rw [if_pos c4]
      exact ⟨rfl, Or.inl rfl⟩
    · rw [if_neg c4]
      by_cases c5 : d.options.length > 10
      · rw [if_pos c5]
        exact ⟨rfl, Or.inr (Or.inl rfl)⟩
      · rw [if_neg c5]
        have hble : ((d.options.map jsTrim).filter (fun o => o != "")).length
            ≤ d.options.length := by
          calc ((d.options.map jsTrim).filter (fun o => o != "")).length
              ≤ (d.options.map jsTrim).length := List.length_filter_le _ _
            _ = d.options.length := List.length_map _ _
        have hblank : ((d.options.map jsTrim).filter (fun o => o != "")).length < 2 := by
          rcases hbad with h | h
          · exact h
          · omega
        have hmono : ((d.options.map jsTrim).filter
            (fun o => decide (0 < o.length ∧ o.length ≤ 200))).length
            ≤ ((d.options.map jsTrim).filter (fun o => o != "")).length := by
          rw [← List.countP_eq_length_filter, ← List.countP_eq_length_filter]
          apply List.countP_mono_left
          intro a _ hp
          have hp2 := of_decide_eq_true hp
          apply bne_iff_ne.mpr
          intro he
          rw [he] at hp2
          exact absurd hp2.1 (by decide)
        have c6 : ((d.options.map jsTrim).filter
            (fun o => decide (0 < o.length ∧ o.length ≤ 200))).length < 2 := by omega
        rw [if_pos c6]
        exact ⟨rfl, Or.inr (Or.inr rfl)⟩
  · intro h1 h2 h3 hbad
    unfold createPollApi
    rw [if_neg h1, if_neg h2, if_neg h3]
    by_cases c4 : b.options = none ∨ (b.options.getD []).length < 2
    · rw [if_pos c4]
      exact ⟨rfl, Or.inl rfl⟩
    · rw [if_neg c4]
      by_cases c5 : ((b.options.getD []).filter (fun o => jsTrim o != "")).length < 2
      · rw [if_pos c5]
        exact ⟨rfl, Or.inr (Or.inl rfl)⟩
      · have c6 : ((b.options.getD []).filter (fun o => jsTrim o != "")).length > 10 := by
          rcases hbad with h | h
          · exact absurd h c5
          · exact h
        rw [if_neg c5, if_pos c6]
        exact ⟨rfl, Or.inr (Or.inr rfl)⟩

/-- C7 witness: the request with options ["A", "   "] — exactly one valid
option after trimming — fails in both implementations with precisely the
minimum-valid-options message and the database is unchanged. -/
theorem createPoll_option_count_validation_witness :
    ((createPoll ⟨[], [], []⟩ dC7 7 1 50 false false).2 = ⟨[], [], []⟩
      ∧ ((createPoll ⟨[], [], []⟩ dC7 7 1 50 false false).1
            = Except.error "Poll must have at least 2 options"
        ∨ (createPoll ⟨[], [], []⟩ dC7 7 1 50 false false).1
            = Except.error "Poll cannot have more than 10 options"
        ∨ (createPoll ⟨[], [], []⟩ dC7 7 1 50 false false).1
            = Except.error "Poll must have at least 2 valid options"))
    ∧ ((createPollApi ⟨[], [], []⟩ bC7 7 1 50 0 false false).2 = ⟨[], [], []⟩
      ∧ ((createPollApi ⟨[], [], []⟩ bC7 7 1 50 0 false false).1
            = Except.error ⟨"At least 2 options are required", 400⟩
        ∨ (createPollApi ⟨[], [], []⟩ bC7 7 1 50 0 false false).1
            = Except.error ⟨"At least 2 valid options are required", 400⟩
        ∨ (createPollApi ⟨[], [], []⟩ bC7 7 1 50 0 false false).1
            = Except.error ⟨"Maximum 10 options allowed", 400⟩))
    ∧ (createPoll ⟨[], [], []⟩ dC7 7 1 50 false false
        = (Except.error "Poll must have at least 2 valid options", ⟨[], [], []⟩))
    ∧ (createPollApi ⟨[], [], []⟩ bC7 7 1 50 0 false false
        = (Except.error ⟨"At least 2 valid options are required", 400⟩, ⟨[], [], []⟩)) :=
  ⟨(createPoll_option_count_validation ⟨[], [], []⟩ dC7 bC7 7 1 50 0
      false false false false).1 (by decide) (by decide) (by decide) (by decide),
   (createPoll_option_count_validation ⟨[], [], []⟩ dC7 bC7 7 1 50 0
      false false false false).2.1 (by decide) (by decide) (by decide) (by decide),
   (createPoll_option_count_validation ⟨[], [], []⟩ dC7 bC7 7 1 50 0
      false false false false).2.2.1 (by decide) (by decide) (by decide) (by decide)
      (by decide) (by decide),
   (createPoll_option_count_validation ⟨[], [], []⟩ dC7 bC7 7 1 50 0
      false false false false).2.2.2 (by decide) (by decide) (by decide) (by decide)
      (by decide)⟩

/-! ### PATCH /api/polls/[id] -/

/-- An entry of the PATCH body's options array (objects with a text field). -/
structure PatchOptionInput where
  text : String
deriving DecidableEq, Inhabited

/-- The body of PATCH /api/polls/[id]. -/
structure PatchBody where
  title : Option String
  description : Option String
  status : Option String
  vote_type : Option String
  max_votes_per_user : Option Nat
  is_public : Option Bool
  expires_at : Option Nat
  options : Option (List PatchOptionInput)
deriving DecidableEq

instance : Inhabited Poll := ⟨⟨0, "", none, "", "", 0, true, none, 0, 0⟩⟩

/-- The poll row written by the PATCH update statement: absent status,
vote_type, max_votes_per_user, is_public and expires_at fields are replaced
by the JS `||` / `!== false` defaults, not kept. -/
def applyPatch (p : Poll) (b : PatchBody) : Poll :=
  { p with
    title := jsTrim (b.title.getD ""),
    description := jsDescription b.description,
    status := jsOrString b.status "active",
    vote_type := jsOrString b.vote_type "single",
    max_votes_per_user := jsOrNat b.max_votes_per_user 1,
    is_public := b.is_public ≠ some false,
    expires_at := jsOrExpiry b.expires_at }

/-- PATCH /api/polls/[id] for an authenticated user, translated
check-for-check: title, description and option-count validation, the
ownership check, then the poll update, wholesale option deletion and
re-insertion with fresh order_index 0..n-1.  Note the handler never
validates max_votes_per_user against the option count and never checks
expires_at against the clock. -/
def patchPoll (db : DB) (pollId : Nat) (b : PatchBody) (userId optionIdBase : Nat) :
    Except ApiError Poll × DB :=
  if b.title = none ∨ (jsTrim (b.title.getD "")).length < 3 then
    (Except.error ⟨"Title must be at least 3 characters long", 400⟩, db)
  else if (b.title.getD "").length > 200 then
    (Except.error ⟨"Title must be less than 200 characters", 400⟩, db)
  else if (b.description.getD "").length > 1000 then
    (Except.error ⟨"Description must be less than 1000 characters", 400⟩, db)
  else if b.options = none ∨ (b.options.getD []).length < 2 then
    (Except.error ⟨"At least 2 options are required", 400⟩, db)
  else
    let validOptions := (b.options.getD []).filter (fun o => jsTrim o.text != "")
    if validOptions.length < 2 then
      (Except.error ⟨"At least 2 valid options are required", 400⟩, db)
    else if validOptions.length > 10 then
      (Except.error ⟨"Maximum 10 options allowed", 400⟩, db)
    else if db.findPoll pollId = none then
      (Except.error ⟨"Poll not found", 404⟩, db)
    else
      let poll := (db.findPoll pollId).getD default
      if poll.created_by ≠ userId then
        (Except.error ⟨"You can only edit polls you created", 403⟩, db)
      else
        let newPolls := db.polls.map
          (fun p => if p.id = pollId ∧ p.created_by = userId then applyPatch p b else p)
        let db1 : DB := { db with polls := newPolls }
        let keptOpts := db1.poll_options.filter (fun o => o.poll_id != pollId)
        let db2 : DB := { db1 with poll_options := keptOpts }
        let newOpts := validOptions.enum.map
          (fun ie => PollOption.mk (optionIdBase + ie.1) pollId (jsTrim ie.2.text) ie.1)
        (Except.ok (applyPatch poll b), { db2 with poll_options := db2.poll_options ++ newOpts })

/-- State for claim C9's witness: a draft, multiple-choice, private poll
with max 3 votes per user and an expiry. -/
def dbC9 : DB := ⟨[⟨1, "Draft poll", some "d", "draft", "multiple", 3, false, some 99, 7, 0⟩],
  [⟨10, 1, "A", 0⟩, ⟨11, 1, "B", 1⟩], []⟩

/-- Body for claim C9's witness: only title and options are supplied. -/
def bC9 : PatchBody := ⟨some "New title", none, none, none, none, none, none,
  some [⟨"A"⟩, ⟨"B"⟩]⟩

/-- C9: a PATCH body that omits status, vote_type, max_votes_per_user,
is_public and expires_at does not preserve the stored values: the update
overwrites them with the defaults "active", "single", 1, true and null, so
editing only the title of a draft poll activates it and resets its vote
settings. -/
theorem patchPoll_omitted_fields_reset
    (db : DB) (pollId : Nat) (b : PatchBody) (userId optionIdBase : Nat) (poll : Poll)
    (hst : b.status = none) (hvt : b.vote_type = none) (hmx : b.max_votes_per_user = none)
    (hip : b.is_public = none) (hex : b.expires_at = none)
    (h1 : ¬(b.title = none ∨ (jsTrim (b.title.getD "")).length < 3))
    (h2 : ¬((b.title.getD "").length > 200))
    (h3 : ¬((b.description.getD "").length > 1000))
    (h4 : ¬(b.options = none ∨ (b.options.getD []).length < 2))
    (h5 : ¬(((b.options.getD []).filter (fun o => jsTrim o.text != "")).length < 2))
    (h6 : ¬(((b.options.getD []).filter (fun o => jsTrim o.text != "")).length > 10))
    (hfind : db.findPoll pollId = some poll)
    (hown : poll.created_by = userId) :
    (patchPoll db pollId b userId optionIdBase).1 = Except.ok (applyPatch poll b)
    ∧ (applyPatch poll b).status = "active"
    ∧ (applyPatch poll b).vote_type = "single"
    ∧ (applyPatch poll b).max_votes_per_user = 1
    ∧ (applyPatch poll b).is_public = true
    ∧ (applyPatch poll b).expires_at = none := by
  have hprops : (applyPatch poll b).status = "active"
      ∧ (applyPatch poll b).vote_type = "single"
      ∧ (applyPatch poll b).max_votes_per_user = 1
      ∧ (applyPatch poll b).is_public = true
      ∧ (applyPatch poll b).expires_at = none := by
    simp [applyPatch, jsOrString, jsOrNat, jsOrExpiry, hst, hvt, hmx, hip, hex]
  refine ⟨?_, hprops.1, hprops.2.1, hprops.2.2.1, hprops.2.2.2.1, hprops.2.2.2.2⟩
  unfold patchPoll
  rw [if_neg h1]
  simp only [if_neg h2, if_neg h3, if_neg h4, if_neg h5, if_neg h6, hfind, Option.getD_some]
  have hsn : ¬((some poll : Option Poll) = none) := fun hc => by cases hc
  have hnown : ¬(poll.created_by ≠ userId) := fun hc => hc hown
  simp only [if_neg hsn, if_neg hnown]

/-- C9 witness: patching only the title of the draft poll returns a poll
with status "active", vote_type "single", max_votes_per_user 1, is_public
true and no expiry, though the stored row had "draft", "multiple", 3, false
and an expiry. -/
theorem patchPoll_omitted_fields_reset_witness :
    (patchPoll dbC9 1 bC9 7 50).1
        = Except.ok (applyPatch ⟨1, "Draft poll", some "d", "draft", "multiple", 3, false,
            some 99, 7, 0⟩ bC9)
    ∧ (applyPatch ⟨1, "Draft poll", some "d", "draft", "multiple", 3, false,
        some 99, 7, 0⟩ bC9).status = "active"
    ∧ (applyPatch ⟨1, "Draft poll", some "d", "draft", "multiple", 3, false,
        some 99, 7, 0⟩ bC9).vote_type = "single"
    ∧ (applyPatch ⟨1, "Draft poll", some "d", "draft", "multiple", 3, false,
        some 99, 7, 0⟩ bC9).max_votes_per_user = 1
    ∧ (applyPatch ⟨1, "Draft poll", some "d", "draft", "multiple", 3, false,
        some 99, 7, 0⟩ bC9).is_public = true
    ∧ (applyPatch ⟨1, "Draft poll", some "d", "draft", "multiple", 3, false,
        some 99, 7, 0⟩ bC9).expires_at = none :=
  patchPoll_omitted_fields_reset dbC9 1 bC9 7 50
    ⟨1, "Draft poll", some "d", "draft", "multiple", 3, false, some 99, 7, 0⟩
    rfl rfl rfl rfl rfl (by decide) (by decide) (by decide) (by decide) (by decide)
    (by decide) (by decide) rfl

/-- State for claim C4: an active single-choice poll owned by user 7. -/
def dbC4 : DB := ⟨[⟨1, "Old title", none, "active", "single", 1, true, none, 7, 0⟩],
  [⟨10, 1, "A", 0⟩, ⟨11, 1, "B", 1⟩], []⟩

/-- PATCH body for claim C4: max_votes_per_user 5 with only 2 options, and
an expires_at instant (10) that may lie in the past. -/
def bC4 : PatchBody := ⟨some "Valid title", none, none, some "multiple", some 5, none,
  some 10, some [⟨"A"⟩, ⟨"B"⟩]⟩

/-- The analogous POST /api/polls body, for contrast. -/
def bC4c : ApiCreateBody := ⟨some "Valid title", none, none, some "multiple", some 5, none,
  some 10, some ["A", "B"]⟩

/-- C4 counterexample: the PATCH handler accepts max_votes_per_user = 5 with
only 2 valid options and a stale expires_at, returning the updated poll,
although createPoll rejects the analogous request with the
max-votes-exceeds-options error — so PATCH is not subject to the same field
validation as createPoll. -/
theorem patchPoll_missing_create_checks :
    (patchPoll dbC4 1 bC4 7 50).1
        = Except.ok (applyPatch ⟨1, "Old title", none, "active", "single", 1, true,
            none, 7, 0⟩ bC4)
    ∧ (applyPatch ⟨1, "Old title", none, "active", "single", 1, true, none, 7, 0⟩
        bC4).max_votes_per_user = 5
    ∧ ((bC4.options.getD []).filter (fun o => jsTrim o.text != "")).length = 2
    ∧ (applyPatch ⟨1, "Old title", none, "active", "single", 1, true, none, 7, 0⟩
        bC4).expires_at = some 10
    ∧ (createPollApi ⟨[], [], []⟩ bC4c 7 1 50 100 false false).1
        = Except.error ⟨"Max votes per user cannot exceed number of options", 400⟩ := by
  refine ⟨?_, by decide, by decide, by decide, by decide⟩
  decide

/-- C4 (amended): PATCH applies the createPoll title, description and
option-count validation (but not the max-votes-per-option-count or
expires-at-in-the-future checks), and a non-owner caller is rejected with
403 "You can only edit polls you created" while the database is unchanged. -/
theorem patchPoll_validation_and_ownership
    (db : DB) (pollId : Nat) (b : PatchBody) (userId optionIdBase : Nat) :
    ((b.title = none ∨ (jsTrim (b.title.getD "")).length < 3) →
      patchPoll db pollId b userId optionIdBase
        = (Except.error ⟨"Title must be at least 3 characters long", 400⟩, db))
    ∧ (¬(b.title = none ∨ (jsTrim (b.title.getD "")).length < 3) →
       (b.title.getD "").length > 200 →
      patchPoll db pollId b userId optionIdBase
        = (Except.error ⟨"Title must be less than 200 characters", 400⟩, db))
    ∧ (¬(b.title = none ∨ (jsTrim (b.title.getD "")).length < 3) →
       ¬((b.title.getD "").length > 200) →
       (b.description.getD "").length > 1000 →
      patchPoll db pollId b userId optionIdBase
        = (Except.error ⟨"Description must be less than 1000 characters", 400⟩, db))
    ∧ (¬(b.title = none ∨ (jsTrim (b.title.getD "")).length < 3) →
       ¬((b.title.getD "").length > 200) →
       ¬((b.description.getD "").length > 1000) →
       (b.options = none ∨ (b.options.getD []).length < 2) →
      patchPoll db pollId b userId optionIdBase
        = (Except.error ⟨"At least 2 options are required", 400⟩, db))
    ∧ (¬(b.title = none ∨ (jsTrim (b.title.getD "")).length < 3) →
       ¬((b.title.getD "").length > 200) →
       ¬((b.description.getD "").length > 1000) →
       ¬(b.options = none ∨ (b.options.getD []).length < 2) →
       ((b.options.getD []).filter (fun o => jsTrim o.text != "")).length < 2 →
      patchPoll db pollId b userId optionIdBase
        = (Except.error ⟨"At least 2 valid options are required", 400⟩, db))
    ∧ (¬(b.title = none ∨ (jsTrim (b.title.getD "")).length < 3) →
       ¬((b.title.getD "").length > 200) →
       ¬((b.description.getD "").length > 1000) →
       ¬(b.options = none ∨ (b.options.getD []).length < 2) →
       ¬(((b.options.getD []).filter (fun o => jsTrim o.text != "")).length < 2) →
       ((b.options.getD []).filter (fun o => jsTrim o.text != "")).length > 10 →
      patchPoll db pollId b userId optionIdBase
        = (Except.error ⟨"Maximum 10 options allowed", 400⟩, db))
    ∧ (∀ poll, ¬(b.title = none ∨ (jsTrim (b.title.getD "")).length < 3) →
       ¬((b.title.getD "").length > 200) →
       ¬((b.description.getD "").length > 1000) →
       ¬(b.options = none ∨ (b.options.getD []).length < 2) →
       ¬(((b.options.getD []).filter (fun o => jsTrim o.text != "")).length < 2) →
       ¬(((b.options.getD []).filter (fun o => jsTrim o.text != "")).length > 10) →
       db.findPoll pollId = some poll →
       poll.created_by ≠ userId →
      patchPoll db pollId b userId optionIdBase
        = (Except.error ⟨"You can only edit polls you created", 403⟩, db)) := by
  refine ⟨?_, ?_, ?_, ?_, ?_, ?_, ?_⟩
  · intro h1
    unfold patchPoll
    rw [if_pos h1]
  · intro h1 h2
    unfold patchPoll
    rw [if_neg h1, if_pos h2]
  · intro h1 h2 h3
    unfold patchPoll
    rw [if_neg h1, if_neg h2, if_pos h3]
  · intro h1 h2 h3 h4
    unfold patchPoll
    rw [if_neg h1, if_neg h2, if_neg h3, if_pos h4]
  · intro h1 h2 h3 h4 h5
    unfold patchPoll
    rw [if_neg h1]
    simp only [if_neg h2, if_neg h3, if_neg h4, if_pos h5]
  · intro h1 h2 h3 h4 h5 h6
    unfold patchPoll
    rw [if_neg h1]
    simp only [if_neg h2, if_neg h3, if_neg h4, if_neg h5, if_pos h6]
  · intro poll h1 h2 h3 h4 h5 h6 hfind hown
    unfold patchPoll
    rw [if_neg h1]
    simp only [if_neg h2, if_neg h3, if_neg h4, if_neg h5, if_neg h6, hfind, Option.getD_some]
    have hsn : ¬((some poll : Option Poll) = none) := fun hc => by cases hc
    simp only [if_neg hsn, if_pos hown]

/-- C4 witness: user 8, who does not own poll 1, receives the 403 forbidden
error and the database is unchanged. -/
theorem patchPoll_validation_and_ownership_witness :
    patchPoll dbC4 1 bC4 8 50
      = (Except.error ⟨"You can only edit polls you created", 403⟩, dbC4) :=
  (patchPoll_validation_and_ownership dbC4 1 bC4 8 50).2.2.2.2.2.2
    ⟨1, "Old title", none, "active", "single", 1, true, none, 7, 0⟩
    (by decide) (by decide) (by decide) (by decide) (by decide) (by decide)
    (by decide) (by decide)

/-! ### GET /api/polls -/

/-- Lower-case a string character-wise (the `ilike` case folding). -/
def lowerStr (s : String) : String := ⟨s.data.map Char.toLower⟩

/-- `title.ilike.%search%, description.ilike.%search%` as a disjunctive
filter; a null description matches nothing. -/
def matchesSearch (p : Poll) (q : String) : Bool :=
  decide ((lowerStr q).data <:+: (lowerStr p.title).data) ||
    (match p.description with
      | some d => decide ((lowerStr q).data <:+: (lowerStr d).data)
      | none => false)

/-- `ORDER BY created_at DESC` (newest first). -/
def createdDescOrder (a b : Poll) : Prop := b.created_at ≤ a.created_at

instance : DecidableRel createdDescOrder := fun a b => by
  unfold createdDescOrder
  infer_instance

instance : IsTotal Poll createdDescOrder := ⟨by intro a b; unfold createdDescOrder; omega⟩

instance : IsTrans Poll createdDescOrder := ⟨by intro a b c; unfold createdDescOrder; omega⟩

/-- Query parameters of GET /api/polls; page and limit are the parseInt
results (integers), a missing parameter is none. -/
structure PollsQuery where
  page : Option Int
  limit : Option Int
  status : Option String
  search : Option String
  userId : Option Nat
deriving DecidableEq

/-- The pagination object of the response.  `totalPages` is
`Math.ceil(total / limit)` (the model returns 0 where JS would divide by
zero). -/
structure Pagination where
  page : Int
  limit : Int
  total : Nat
  totalPages : Int
deriving DecidableEq

/-- The response of GET /api/polls. -/
structure PollsResponse where
  polls : List Poll
  pagination : Pagination
deriving DecidableEq

/-- GET /api/polls, translated from the route handler: limit capped at 50
(default 10), page default 1, offset (page-1)*limit; own-polls filter when
userId matches the authenticated user, otherwise public (and active unless
a status filter is given) polls; optional status and search filters; newest
first; the slice [offset, offset+limit-1] of the ordered rows (negative
bounds clamp to 0 in the model); `count` is the number of rows before
slicing. -/
def getPollsApi (db : DB) (q : PollsQuery) (user : Option Nat) : PollsResponse :=
  let page : Int := q.page.getD 1
  let limit : Int := min (q.limit.getD 10) 50
  let offset : Int := (page - 1) * limit
  let statusParam : Option String := match q.status with
    | some s => if s = "" then none else some s
    | none => none
  let ownQuery : Bool := match q.userId, user with
    | some uid, some u => u == uid
    | _, _ => false
  let f1 := if ownQuery then db.polls.filter (fun p => p.created_by == q.userId.getD 0)
    else
      let pub := db.polls.filter (fun p => p.is_public)
      if statusParam = none ∨ statusParam = some "active" then
        pub.filter (fun p => p.status == "active")
      else pub
  let f2 := match statusParam with
    | some s => if ownQuery then f1.filter (fun p => p.status == s) else f1
    | none => f1
  let f3 := match q.search with
    | some s => f2.filter (fun p => matchesSearch p s)
    | none => f2
  let sorted := List.insertionSort createdDescOrder f3
  let rows := (sorted.drop offset.toNat).take limit.toNat
  ⟨rows, ⟨page, limit, f3.length, ⌈(f3.length : ℚ) / (limit : ℚ)⌉⟩⟩

/-- C10: the effective page size of GET /api/polls is the parsed limit
parameter capped at 50 (default 10 when absent); at most that many polls are
returned; the pagination object reports the capped limit, the page (default
1) and totalPages = ceil(total / limit). -/
theorem getPollsApi_pagination (db : DB) (q : PollsQuery) (user : Option Nat) :
    (getPollsApi db q user).pagination.limit = min (q.limit.getD 10) 50
    ∧ (getPollsApi db q user).polls.length ≤ (min (q.limit.getD 10) 50).toNat
    ∧ (getPollsApi db q user).pagination.page = q.page.getD 1
    ∧ (getPollsApi db q user).pagination.totalPages
        = ⌈((getPollsApi db q user).pagination.total : ℚ)
            / (((min (q.limit.getD 10) 50) : Int) : ℚ)⌉ := by
  refine ⟨rfl, ?_, rfl, rfl⟩
  unfold getPollsApi
  exact (List.length_take_le _ _).trans (Nat.le_refl _)
